import Mathlib

/-!
Shallow embedding of the National-Repository front-end scripts.

`Part000` models `src/unnamed/part_000` (the category/E-LIS variant built
around `smartSearch`, `triggerAutoHarvest`, `renderResults`,
`updatePagination` and `checkSystemHealth`).  `ScriptJs` models
`src/script.js` (the theses variant with the `debounce` helper).

Asynchronous functions are split at their `await` points: the part of a
JS `async` function that runs synchronously up to the first network
request becomes one Lean function, and the continuation that runs when
the response arrives becomes another, with the response passed in as an
explicit value.  Every observable action (network request, DOM render,
timer) is recorded as an `Effect` in an ordered trace whose list order
is the execution order of the corresponding JS statements.
-/

namespace Part000

/-- Millisecond timestamps, as produced by `Date.now()`. -/
abbrev Time := Int

/-- `const PAGE_SIZE = 24`. -/
def PAGE_SIZE : Nat := 24

/-- `const HARVEST_INTERVAL = 30 * 60 * 1000`. -/
def HARVEST_INTERVAL : Time := 30 * 60 * 1000

/-- JS `x || d` for an optional string field: `undefined`, `null` and the
empty string are falsy, every other string is truthy. -/
def jsOr (v : Option String) (d : String) : String :=
  match v with
  | none => d
  | some s => if s = "" then d else s

/-- JS `String.prototype.trim()`: strip whitespace from both ends,
modelled on the character list. -/
def strTrim (s : String) : String :=
  (((s.toList.dropWhile Char.isWhitespace).reverse.dropWhile
    Char.isWhitespace).reverse).asString

/-- JS `String.prototype.startsWith(p)`, modelled on the character
list. -/
def strStartsWith (s p : String) : Bool :=
  p.toList.isPrefixOf s.toList

/-- JS `String.prototype.slice(0, n)`, modelled on the character list. -/
def strTake (s : String) (n : Nat) : String :=
  (s.toList.take n).asString

/-- The `authors` field of a record as received from the backend: a JSON
array of strings, a plain string, or absent. -/
inductive AuthorsField
  | arr (names : List String)
  | str (s : String)
  | missing
deriving DecidableEq, Repr

/-- `Array.isArray(r.authors) ? r.authors.join(", ") : r.authors || ""`. -/
def authorsText : AuthorsField → String
  | .arr names => String.intercalate ", " names
  | .str s => s
  | .missing => ""

/-- A backend search-result record; every field is optional. -/
structure SearchRecord where
  title : Option String := none
  authors : AuthorsField := .missing
  description : Option String := none
  source : Option String := none
  type : Option String := none
  year : Option String := none
  identifier : Option String := none
  url : Option String := none
deriving DecidableEq, Repr

/-- The action area of a rendered card: an `Open` link, or the disabled
`No URL` badge. -/
inductive CardAction
  | openUrl (url : String)
  | noUrl
deriving DecidableEq, Repr

/-- The visible content of one rendered `data-card`: `none` for
`authorsLine`/`descriptionLine` means the element is not emitted at all. -/
structure Card where
  type : String
  source : String
  title : String
  authorsLine : Option String
  descriptionLine : Option String
  year : String
  identifier : String
  action : CardAction
deriving DecidableEq, Repr

/-- The per-record body of `renderResults` (part_000 lines 279-338):
defaulting of each field, author joining, description trimming and
truncation at 300 characters, and URL validation. -/
def renderRecord (r : SearchRecord) : Card :=
  let authors := authorsText r.authors
  let desc := strTrim (jsOr r.description "")
  let title := jsOr r.title "Untitled"
  let source := jsOr r.source "Unknown"
  let type := jsOr r.type "Record"
  let year := jsOr r.year "—"
  let identifier := jsOr r.identifier "—"
  let url := jsOr r.url "#"
  let hasValidUrl :=
    url != "" && url != "#" &&
      (strStartsWith url "http://" || strStartsWith url "https://")
  { type := type
    source := source
    title := title
    authorsLine := if authors = "" then none else some authors
    descriptionLine :=
      if desc = "" then none
      else some (if 300 < desc.length then strTake desc 300 ++ "…" else desc)
    year := year
    identifier := identifier
    action := if hasValidUrl then .openUrl url else .noUrl }

/-- `Math.ceil(total / pageSize)` for natural inputs. -/
def ceilDiv (a b : Nat) : Nat := (a + b - 1) / b

/-- What `updatePagination(page, computedTotalPages, total)` leaves on
screen and in the globals (part_000 lines 479-492): `totalPages`
becomes `computedTotalPages || 1`, previous is disabled when
`currentPage <= 1`, next when `currentPage >= totalPages`. -/
structure PaginationView where
  page : Nat
  totalPages : Nat
  totalRecords : Nat
  prevDisabled : Bool
  nextDisabled : Bool
deriving DecidableEq, Repr

def updatePagination (page computedTotalPages total : Nat) : PaginationView :=
  let tp := if computedTotalPages = 0 then 1 else computedTotalPages
  { page := page
    totalPages := tp
    totalRecords := total
    prevDisabled := decide (page ≤ 1)
    nextDisabled := decide (tp ≤ page) }

/-- The module-level mutable globals of part_000 (lines 4-10). -/
structure AppState where
  currentCategory : String := "all"
  currentQuery : String := ""
  currentPage : Nat := 1
  currentFilters : List (String × String) := []
  totalPages : Nat := 1
  lastHarvestTime : Time := 0
deriving DecidableEq, Repr

/-- The JSON body of a primary fetch: `smartSearch` posts either to
`/elis-live-search` or to `/harvest` (lines 85-103). -/
inductive RequestBody
  | elis (query : String) (page pageSize : Nat)
  | cached (category query : String) (page pageSize : Nat)
      (filters : List (String × String))
deriving DecidableEq, Repr

/-- One facet option list entry (`{name, count}`). -/
structure FacetEntry where
  name : String
  count : Nat
deriving DecidableEq, Repr

/-- The `facets` object of a `/harvest` response. -/
structure Facets where
  years : List FacetEntry := []
  repositories : List FacetEntry := []
  types : List FacetEntry := []
deriving DecidableEq, Repr

/-- An observable action of part_000, recorded in execution order.
`fetchPrimary` and `fetchHarvestIncremental` are the only network
requests; the rest are DOM renders and timer scheduling. -/
inductive Effect
  | fetchPrimary (path : String) (body : RequestBody)
  | fetchHarvestIncremental (category : String)
  | renderElisIdle
  | showLoading
  | renderResultsE (records : List SearchRecord) (isLiveSearch : Bool)
  | renderFiltersE (facets : Option Facets)
  | hideFiltersSidebar
  | renderErrorE (msg : String)
  | updatePaginationE (view : PaginationView)
  | notifyHarvest (newRecords : Nat)
  | scheduleHealthCheck
  | refreshSearch (page : Nat) (runHarvest : Bool)
  | updateSystemInfoE
deriving DecidableEq, Repr

/-- Whether an effect dispatches a network request. -/
def Effect.isNetworkCall : Effect → Bool
  | .fetchPrimary _ _ => true
  | .fetchHarvestIncremental _ => true
  | _ => false

/-- Whether an effect is the background-harvest request. -/
def Effect.isHarvestFetch : Effect → Bool
  | .fetchHarvestIncremental _ => true
  | _ => false

/-- Whether an effect is the harvest-triggered refresh call
`smartSearch(currentPage, { runHarvest: false })`. -/
def Effect.isRefreshSearch : Effect → Bool
  | .refreshSearch _ _ => true
  | _ => false

/-- The context an in-flight `/harvest-incremental` request carries into
its continuation: the `category` argument, the `refreshAfter` argument
and the `now` captured at line 182. -/
structure HarvestCont where
  category : String
  refreshAfter : Bool
  now : Time
deriving DecidableEq, Repr

/-- What the synchronous prefix of `triggerAutoHarvest` did: either it
returned `{skipped: true}` at the gate, or it dispatched the request. -/
inductive DispatchResult
  | skipped
  | dispatched (cont : HarvestCont)
deriving DecidableEq, Repr

/-- `triggerAutoHarvest` up to its first `await` (lines 181-202): read
`now`, check the `HarvestGate` condition `now - lastHarvestTime <
HARVEST_INTERVAL`, and either return `{skipped: true}` or POST
`/harvest-incremental`.  No global is written in this prefix. -/
def triggerAutoHarvestDispatch (s : AppState) (category : String)
    (refreshAfter : Bool) (now : Time) :
    AppState × List Effect × DispatchResult :=
  if now - s.lastHarvestTime < HARVEST_INTERVAL then
    (s, [], .skipped)
  else
    (s, [.fetchHarvestIncremental category],
      .dispatched ⟨category, refreshAfter, now⟩)

/-- The `/harvest-incremental` response: parsed JSON, or a transport
failure caught by the `catch` block. -/
inductive HarvestResponse
  | ok (success : Bool) (newRecords : Nat) (error : Option String)
  | netError (msg : String)
deriving DecidableEq, Repr

/-- The continuation of `triggerAutoHarvest` after the response arrives
(lines 204-230): on `success` set `lastHarvestTime` to the captured
`now`, show the notification, schedule the health refresh and, when
`refreshAfter && newRecords > 0`, fire `smartSearch(currentPage,
{runHarvest: false})`; on failure or transport error only log. -/
def triggerAutoHarvestComplete (s : AppState) (cont : HarvestCont)
    (resp : HarvestResponse) : AppState × List Effect :=
  match resp with
  | .netError _ => (s, [])
  | .ok success newRecords _ =>
    if success then
      ({ s with lastHarvestTime := cont.now },
        [.notifyHarvest newRecords, .scheduleHealthCheck] ++
          (if cont.refreshAfter ∧ 0 < newRecords then
            [.refreshSearch s.currentPage false]
          else []))
    else (s, [])

/-- The value `triggerAutoHarvest` resolves with. -/
inductive HarvestReturn
  | skippedR
  | jsonResult (success : Bool) (newRecords : Nat)
  | requestFailed (msg : String)
deriving DecidableEq, Repr

/-- One whole run of `triggerAutoHarvest(category, refreshAfter)` at time
`now`, with the network response `resp` supplied as an oracle: the
dispatch prefix followed (when not skipped) by the completion. -/
def triggerAutoHarvest (s : AppState) (category : String)
    (refreshAfter : Bool) (now : Time) (resp : HarvestResponse) :
    AppState × List Effect × HarvestReturn :=
  match triggerAutoHarvestDispatch s category refreshAfter now with
  | (s1, effs, .skipped) => (s1, effs, .skippedR)
  | (s1, effs, .dispatched cont) =>
    let done := triggerAutoHarvestComplete s1 cont resp
    (done.1, effs ++ done.2,
      match resp with
      | .netError msg => .requestFailed msg
      | .ok success newRecords _ => .jsonResult success newRecords)

/-- The primary-fetch response seen by `smartSearch`: a transport/HTTP
failure (covers both the thrown `HTTP status` error and a network
exception), or the parsed JSON with `results` absent when the field is
missing or not an array. -/
inductive PrimaryResponse
  | netError (msg : String)
  | json (success : Bool) (error : Option String)
      (results : Option (List SearchRecord)) (total : Nat) (page : Nat)
      (facets : Option Facets)
deriving DecidableEq, Repr

/-- One run of `smartSearch(page, {runHarvest})` (lines 50-163) with the
primary response supplied as an oracle, up to the point where the
background harvest request (if any) has been dispatched; the returned
`HarvestCont` is that outstanding request.  The effect trace follows the
source order: E-LIS idle guard, loading state, primary fetch, render,
filters, pagination, then `triggerAutoHarvest(currentCategory, true)`. -/
def smartSearchStep (s : AppState) (page : Nat) (runHarvest : Bool)
    (resp : PrimaryResponse) (now : Time) :
    AppState × List Effect × Option HarvestCont :=
  let s0 := { s with currentPage := page }
  if s0.currentCategory = "elis" ∧ s0.currentQuery = "" then
    (s0, [.renderElisIdle, .hideFiltersSidebar], none)
  else
    let apiUrl : String :=
      if s0.currentCategory = "elis" then "/elis-live-search" else "/harvest"
    let requestBody : RequestBody :=
      if s0.currentCategory = "elis" then
        .elis s0.currentQuery s0.currentPage PAGE_SIZE
      else
        .cached s0.currentCategory s0.currentQuery s0.currentPage PAGE_SIZE
          s0.currentFilters
    let req : Effect := .fetchPrimary apiUrl requestBody
    match resp with
    | .netError msg => (s0, [.showLoading, req, .renderErrorE msg], none)
    | .json success error results total dpage facets =>
      if success = false then
        (s0, [.showLoading, req,
          .renderErrorE (jsOr error "API returned failure")], none)
      else
        match results with
        | none =>
          (s0, [.showLoading, req,
            .renderErrorE "Invalid response format: results array missing"],
            none)
        | some records =>
          let isLive := s0.currentCategory = "elis"
          let filtersEff : Effect :=
            if isLive then .hideFiltersSidebar else .renderFiltersE facets
          let pv := updatePagination dpage (ceilDiv total PAGE_SIZE) total
          let s1 := { s0 with currentPage := dpage, totalPages := pv.totalPages }
          let base : List Effect :=
            [.showLoading, req, .renderResultsE records (decide isLive),
              filtersEff, .updatePaginationE pv]
          if runHarvest ∧ s0.currentCategory ≠ "elis" then
            let d := triggerAutoHarvestDispatch s1 s0.currentCategory true now
            (d.1, base ++ d.2.1,
              match d.2.2 with
              | .dispatched cont => some cont
              | .skipped => none)
          else (s1, base, none)

/-- The `/health` response as `checkSystemHealth` consumes it:
`data.harvest?.last_harvest` plus the record counts, or a failure. -/
inductive HealthResponse
  | ok (lastHarvest : Option String) (totalRecords : Nat)
  | netError (msg : String)
deriving DecidableEq, Repr

/-- `checkSystemHealth` (lines 628-642) with the response as an oracle
and `dateMs` standing for `new Date(str).getTime()`: it renders the
system info and, when `data.harvest?.last_harvest` is present and not
`"Never"`, overwrites the global `lastHarvestTime` with the parsed
backend timestamp. -/
def checkSystemHealth (s : AppState) (resp : HealthResponse)
    (dateMs : String → Time) : AppState × List Effect :=
  match resp with
  | .netError _ => (s, [.updateSystemInfoE])
  | .ok lastHarvest _ =>
    match lastHarvest with
    | some lh =>
      if lh = "Never" then (s, [.updateSystemInfoE])
      else ({ s with lastHarvestTime := dateMs lh }, [.updateSystemInfoE])
    | none => (s, [.updateSystemInfoE])

end Part000

namespace ScriptJs

/-- Millisecond timestamps. -/
abbrev Time := Int

/-- `const PAGE_SIZE = 20`. -/
def PAGE_SIZE : Nat := 20

/-- The quiescence delay of `debouncedSearch = debounce(() =>
performSearch(1), 450)` (script.js line 292). -/
def DEBOUNCE_DELAY : Time := 450

/-- The state the `input` listener and the `debounce` closure share: the
global `currentQuery` and the single pending timer `t` of `debounce`
(script.js lines 27-33), kept as the absolute time at which the
scheduled callback is due to fire (`none` when no timer is pending). -/
structure DebounceState where
  currentQuery : String
  pending : Option Time
deriving DecidableEq, Repr

/-- The `input` listener (script.js lines 304-307) at time `t` with the
field value `value`: set `currentQuery`, then the debounced wrapper does
`clearTimeout(t); t = setTimeout(fn, delay)` — the old pending timer is
discarded and one timer is scheduled `delay` after the keystroke. -/
def onInput (_s : DebounceState) (t : Time) (value : String) (delay : Time) :
    DebounceState :=
  { currentQuery := value, pending := some (t + delay) }

/-- The timer callback firing, observed at the next event time `t`: a
pending timer whose deadline has passed executes `performSearch(1)`,
which reads `currentQuery` at that moment.  Executed calls are recorded
as `(fire time, query used)`. -/
def flushAt (s : DebounceState) (t : Time) :
    List (Time × String) × DebounceState :=
  match s.pending with
  | some ft =>
    if ft ≤ t then ([(ft, s.currentQuery)], { s with pending := none })
    else ([], s)
  | none => ([], s)

/-- Run a whole keystroke sequence on the event loop: before each
keystroke the pending timer fires if its deadline has passed, then the
`input` listener runs; after the last keystroke the remaining pending
timer (if any) eventually fires.  Returns the executed search calls in
order. -/
def runKeystrokes (delay : Time) :
    List (Time × String) → DebounceState → List (Time × String)
  | [], s =>
    match s.pending with
    | some ft => [(ft, s.currentQuery)]
    | none => []
  | (t, v) :: rest, s =>
    let step := flushAt s t
    step.1 ++ runKeystrokes delay rest (onInput step.2 t v delay)

/-- Whether every keystroke after the first falls within `delay` of its
predecessor (the whole burst sits inside one quiescence window). -/
def withinWindow (delay : Time) : List (Time × String) → Prop
  | [] => True
  | [_] => True
  | (t1, _) :: (t2, v2) :: rest =>
    t2 < t1 + delay ∧ withinWindow delay ((t2, v2) :: rest)

end ScriptJs


/-! Theorems about the claims, preceded by the helper lemmas their
proofs share. -/

/-- The dispatch prefix of `triggerAutoHarvest` writes no global. -/
lemma triggerAutoHarvestDispatch_fst (s : Part000.AppState)
    (category : String) (refreshAfter : Bool) (now : Part000.Time) :
    (Part000.triggerAutoHarvestDispatch s category refreshAfter now).1 = s := by
  unfold Part000.triggerAutoHarvestDispatch
  split <;> rfl

/-- The dispatch prefix emits at most the harvest request itself. -/
lemma triggerAutoHarvestDispatch_effects (s : Part000.AppState)
    (category : String) (refreshAfter : Bool) (now : Part000.Time) :
    (Part000.triggerAutoHarvestDispatch s category refreshAfter now).2.1 = []
      ∨
    (Part000.triggerAutoHarvestDispatch s category refreshAfter now).2.1 =
      [.fetchHarvestIncremental category] := by
  unfold Part000.triggerAutoHarvestDispatch
  split
  · exact Or.inl rfl
  · exact Or.inr rfl

/-- C1: for every invocation of `triggerAutoHarvest` at a time `now` with
`now - lastHarvestTime < HARVEST_INTERVAL`, the invocation is a no-op:
its effect trace is empty (no network request), the state — in
particular `lastHarvestTime` — is unchanged, and it resolves with the
skipped signal, for every category, refresh flag and response oracle. -/
theorem c1_harvest_gate_noop (s : Part000.AppState) (category : String)
    (refreshAfter : Bool) (now : Part000.Time)
    (resp : Part000.HarvestResponse)
    (h : now - s.lastHarvestTime < Part000.HARVEST_INTERVAL) :
    Part000.triggerAutoHarvest s category refreshAfter now resp =
      (s, [], .skippedR) := by
  unfold Part000.triggerAutoHarvest Part000.triggerAutoHarvestDispatch
  rw [if_pos h]

/-- Witness for C1: a freshly harvested state at a concrete time skips. -/
theorem c1_harvest_gate_noop_witness :
    Part000.triggerAutoHarvest ({ lastHarvestTime := 0 } : Part000.AppState)
        "all" true 5 (.ok true 3 none) =
      (({ lastHarvestTime := 0 } : Part000.AppState), [], .skippedR) :=
  c1_harvest_gate_noop _ "all" true 5 _ (by decide)

/-- C3 counterexample: `checkSystemHealth`, which is not a harvest
completion, overwrites `lastHarvestTime` with the timestamp parsed from
the backend `/health` report (part_000 lines 634-637), so
`lastHarvestTime` is not updated by successful harvest completions
alone: at this concrete state and response it changes from 0 to
1704067200000. -/
theorem c3_counterexample :
    (Part000.checkSystemHealth ({ lastHarvestTime := 0 } : Part000.AppState)
        (.ok (some "2024-01-01T00:00:00Z") 10)
        (fun _ => 1704067200000)).1.lastHarvestTime = 1704067200000 ∧
    ((1704067200000 : Part000.Time) = 0 → False) := by
  refine ⟨rfl, by decide⟩

/-- C3 amended: within the harvest system itself, `lastHarvestTime` is
written exactly once per successful harvest completion (to the `now`
captured at dispatch); a failed harvest — transport error or
`success:false` — leaves the state unchanged and produces no effects, so
the results already displayed stay displayed; neither the dispatch
prefix of `triggerAutoHarvest` nor any run of `smartSearch` modifies
`lastHarvestTime`.  (`checkSystemHealth` additionally synchronizes
`lastHarvestTime` from the backend health report.) -/
theorem c3_lastHarvestTime_updates (s : Part000.AppState)
    (cont : Part000.HarvestCont) (n : Nat) (err : Option String)
    (msg : String) (category : String) (refreshAfter : Bool)
    (now : Part000.Time) (page : Nat) (rh : Bool)
    (resp : Part000.PrimaryResponse) :
    (Part000.triggerAutoHarvestComplete s cont (.ok true n err)).1 =
      { s with lastHarvestTime := cont.now } ∧
    Part000.triggerAutoHarvestComplete s cont (.ok false n err) = (s, []) ∧
    Part000.triggerAutoHarvestComplete s cont (.netError msg) = (s, []) ∧
    (Part000.triggerAutoHarvestDispatch s category refreshAfter now).1 = s ∧
    (Part000.smartSearchStep s page rh resp now).1.lastHarvestTime =
      s.lastHarvestTime := by
  refine ⟨rfl, by simp [Part000.triggerAutoHarvestComplete], rfl,
    triggerAutoHarvestDispatch_fst s category refreshAfter now, ?_⟩
  unfold Part000.smartSearchStep
  dsimp only
  split
  · rfl
  · cases resp with
    | netError msg => rfl
    | json success error results total dpage facets =>
      dsimp only
      split
      · rfl
      · cases results with
        | none => rfl
        | some records =>
          dsimp only
          split
          · rw [show (Part000.triggerAutoHarvestDispatch _ _ _ _).1 = _ from
              triggerAutoHarvestDispatch_fst _ _ _ _]
          · rfl

/-- C4 counterexample: the gate is only the time check, and
`lastHarvestTime` advances only when a response arrives, so a second
harvest for the same category is dispatched while the first is still
outstanding.  Concretely, with `lastHarvestTime = 0`, a trigger at
`now = HARVEST_INTERVAL` dispatches `/harvest-incremental` for `"all"`;
before its completion runs (the state is still the dispatch-phase
state), a second trigger for `"all"` at `now = HARVEST_INTERVAL + 1`
passes the gate and dispatches again. -/
theorem c4_counterexample :
    (Part000.triggerAutoHarvestDispatch
        ({ lastHarvestTime := 0 } : Part000.AppState) "all" false
        Part000.HARVEST_INTERVAL).2.1 =
      [.fetchHarvestIncremental "all"] ∧
    (Part000.triggerAutoHarvestDispatch
        (Part000.triggerAutoHarvestDispatch
          ({ lastHarvestTime := 0 } : Part000.AppState) "all" false
          Part000.HARVEST_INTERVAL).1 "all" true
        (Part000.HARVEST_INTERVAL + 1)).2.1 =
      [.fetchHarvestIncremental "all"] := by
  constructor <;> rfl

/-- C4 amended: a background harvest request is never dispatched within
the cool-down interval of the `lastHarvestTime` recorded in the
`HarvestGate` — whenever the dispatch prefix of `triggerAutoHarvest`
emits a `/harvest-incremental` request, `now - lastHarvestTime ≥
HARVEST_INTERVAL` held at the (synchronous, event-loop-atomic) gate
check, and the request is for the invoked category.  The gate does not
prevent a dispatch while an earlier harvest is still outstanding, since
`lastHarvestTime` only advances on completion (see the
counterexample). -/
theorem c4_cooldown_gate (s : Part000.AppState) (category c : String)
    (refreshAfter : Bool) (now : Part000.Time)
    (h : Part000.Effect.fetchHarvestIncremental c ∈
      (Part000.triggerAutoHarvestDispatch s category refreshAfter now).2.1) :
    Part000.HARVEST_INTERVAL ≤ now - s.lastHarvestTime ∧ c = category := by
  unfold Part000.triggerAutoHarvestDispatch at h
  by_cases hg : now - s.lastHarvestTime < Part000.HARVEST_INTERVAL
  · rw [if_pos hg] at h
    simp at h
  · rw [if_neg hg] at h
    simp at h
    exact ⟨le_of_not_lt hg, by simpa using h⟩

/-- Witness for C4 amended: a dispatch that does fire satisfies the
cool-down bound. -/
theorem c4_cooldown_gate_witness :
    Part000.HARVEST_INTERVAL ≤
        (1800001 : Part000.Time) -
          ({ lastHarvestTime := 1 } : Part000.AppState).lastHarvestTime ∧
      "theses" = "theses" :=
  c4_cooldown_gate ({ lastHarvestTime := 1 } : Part000.AppState) "theses"
    "theses" false 1800001 (by decide)

/-- C6 counterexample: at `totalRecords = 0` the computed page count
`Math.ceil(0 / 24) = 0`, but `updatePagination` displays
`computedTotalPages || 1 = 1`, so the displayed total page count is not
`ceil(totalRecords / pageSize)`. -/
theorem c6_counterexample :
    Part000.ceilDiv 0 Part000.PAGE_SIZE = 0 ∧
    (Part000.updatePagination 1 (Part000.ceilDiv 0 Part000.PAGE_SIZE)
        0).totalPages = 1 := by
  constructor <;> rfl

/-- C6 amended: after a search, the displayed total page count is
`max 1 (ceil(totalRecords / pageSize))`, which equals
`ceil(totalRecords / pageSize)` whenever `totalRecords > 0`; for a
1-based page the controls disable "previous" iff `page = 1`, and
whenever `page` additionally does not exceed the displayed page count
they disable "next" iff `page = totalPages`. -/
theorem c6_pagination_amended (total page : Nat) :
    ((Part000.updatePagination page (Part000.ceilDiv total Part000.PAGE_SIZE)
        total).totalPages = max 1 (Part000.ceilDiv total Part000.PAGE_SIZE)) ∧
    (0 < total →
      (Part000.updatePagination page (Part000.ceilDiv total Part000.PAGE_SIZE)
          total).totalPages = Part000.ceilDiv total Part000.PAGE_SIZE) ∧
    (1 ≤ page →
      ((Part000.updatePagination page (Part000.ceilDiv total Part000.PAGE_SIZE)
          total).prevDisabled = true ↔ page = 1)) ∧
    (1 ≤ page →
      page ≤ (Part000.updatePagination page
        (Part000.ceilDiv total Part000.PAGE_SIZE) total).totalPages →
      ((Part000.updatePagination page (Part000.ceilDiv total Part000.PAGE_SIZE)
          total).nextDisabled = true ↔
        page = (Part000.updatePagination page
          (Part000.ceilDiv total Part000.PAGE_SIZE) total).totalPages)) := by
  unfold Part000.updatePagination Part000.ceilDiv Part000.PAGE_SIZE
  dsimp only
  refine ⟨?_, ?_, ?_, ?_⟩
  · split <;> omega
  · intro ht
    split <;> omega
  · intro hp
    simp only [decide_eq_true_eq]
    omega
  · intro hp
    split <;> · simp only [decide_eq_true_eq]; omega

/-- C7: when the active category is `"elis"` and the query is empty,
`smartSearch` renders the E-LIS idle/prompt state, hides the filters,
and makes zero network calls — the run is exactly the idle render, with
only `currentPage` updated and no harvest outstanding, for every page,
harvest flag and response oracle. -/
theorem c7_elis_idle (s : Part000.AppState) (page : Nat) (rh : Bool)
    (resp : Part000.PrimaryResponse) (now : Part000.Time)
    (hcat : s.currentCategory = "elis") (hq : s.currentQuery = "") :
    Part000.smartSearchStep s page rh resp now =
      ({ s with currentPage := page },
        [.renderElisIdle, .hideFiltersSidebar], none) ∧
    ∀ e ∈ (Part000.smartSearchStep s page rh resp now).2.1,
      e.isNetworkCall = false := by
  have hstep : Part000.smartSearchStep s page rh resp now =
      ({ s with currentPage := page },
        [.renderElisIdle, .hideFiltersSidebar], none) := by
    unfold Part000.smartSearchStep
    dsimp only
    rw [if_pos ⟨hcat, hq⟩]
  refine ⟨hstep, ?_⟩
  rw [hstep]
  simp [Part000.Effect.isNetworkCall]

/-- Witness for C7 at the concrete state with category `"elis"` and the
empty query. -/
theorem c7_elis_idle_witness :
    Part000.smartSearchStep
        ({ currentCategory := "elis" } : Part000.AppState) 1 true
        (.netError "offline") 0 =
      (({ currentCategory := "elis", currentPage := 1 } : Part000.AppState),
        [.renderElisIdle, .hideFiltersSidebar], none) ∧
    ∀ e ∈ (Part000.smartSearchStep
        ({ currentCategory := "elis" } : Part000.AppState) 1 true
        (.netError "offline") 0).2.1,
      e.isNetworkCall = false :=
  c7_elis_idle ({ currentCategory := "elis" } : Part000.AppState) 1 true
    (.netError "offline") 0 rfl rfl

/-- A `smartSearch` run with harvesting disabled leaves no harvest
outstanding and emits no harvest request, whatever the response. -/
lemma smartSearchStep_runHarvest_false (s : Part000.AppState) (page : Nat)
    (resp : Part000.PrimaryResponse) (now : Part000.Time) :
    (Part000.smartSearchStep s page false resp now).2.2 = none ∧
    ∀ e ∈ (Part000.smartSearchStep s page false resp now).2.1,
      e.isHarvestFetch = false := by
  unfold Part000.smartSearchStep
  dsimp only
  split
  · exact ⟨rfl, by simp [Part000.Effect.isHarvestFetch]⟩
  · cases resp with
    | netError msg =>
      refine ⟨rfl, ?_⟩
      intro e he
      simp only [List.mem_cons, List.not_mem_nil, or_false] at he
      rcases he with h | h | h <;> subst h
      · rfl
      · split <;> rfl
      · rfl
    | json success error results total dpage facets =>
      dsimp only
      split
      · refine ⟨rfl, ?_⟩
        intro e he
        simp only [List.mem_cons, List.not_mem_nil, or_false] at he
        rcases he with h | h | h <;> subst h
        · rfl
        · split <;> rfl
        · rfl
      · cases results with
        | none =>
          refine ⟨rfl, ?_⟩
          intro e he
          simp only [List.mem_cons, List.not_mem_nil, or_false] at he
          rcases he with h | h | h <;> subst h
          · rfl
          · split <;> rfl
          · rfl
        | some records =>
          dsimp only
          rw [if_neg (by simp)]
          refine ⟨rfl, ?_⟩
          intro e he
          simp only [List.mem_cons, List.not_mem_nil, or_false] at he
          rcases he with h | h | h | h | h <;> subst h
          · rfl
          · split <;> rfl
          · rfl
          · split <;> rfl
          · rfl

/-- C2: when a harvest launched with `refreshAfter` completes with
`success:true` and `newRecords > 0`, its continuation fires exactly one
refresh search — `smartSearch(currentPage, {runHarvest: false})` — and
any `smartSearch` run with harvesting disabled dispatches no harvest
request and leaves none outstanding, so a harvest-triggered refresh
never triggers another harvest (no infinite refresh loop). -/
theorem c2_no_refresh_loop (s : Part000.AppState)
    (cont : Part000.HarvestCont) (n : Nat) (err : Option String)
    (s2 : Part000.AppState) (page : Nat) (resp : Part000.PrimaryResponse)
    (now : Part000.Time) (hra : cont.refreshAfter = true) (hn : 0 < n) :
    ((Part000.triggerAutoHarvestComplete s cont (.ok true n err)).2.countP
        (fun e => e.isRefreshSearch) = 1 ∧
      Part000.Effect.refreshSearch s.currentPage false ∈
        (Part000.triggerAutoHarvestComplete s cont (.ok true n err)).2) ∧
    ((Part000.smartSearchStep s2 page false resp now).2.2 = none ∧
      ∀ e ∈ (Part000.smartSearchStep s2 page false resp now).2.1,
        e.isHarvestFetch = false) := by
  refine ⟨?_, smartSearchStep_runHarvest_false s2 page resp now⟩
  unfold Part000.triggerAutoHarvestComplete
  dsimp only
  rw [if_pos (show (cont.refreshAfter : Prop) ∧ 0 < n from ⟨hra, hn⟩)]
  constructor
  · simp [List.countP_cons, Part000.Effect.isRefreshSearch]
  · simp

/-- Witness for C2 at a concrete continuation, record count and refresh
run. -/
theorem c2_no_refresh_loop_witness :
    ((Part000.triggerAutoHarvestComplete
          ({ currentPage := 3 } : Part000.AppState)
          ⟨"all", true, 1800000⟩ (.ok true 7 none)).2.countP
        (fun e => e.isRefreshSearch) = 1 ∧
      Part000.Effect.refreshSearch 3 false ∈
        (Part000.triggerAutoHarvestComplete
          ({ currentPage := 3 } : Part000.AppState)
          ⟨"all", true, 1800000⟩ (.ok true 7 none)).2) ∧
    ((Part000.smartSearchStep ({} : Part000.AppState) 3 false
        (.json true none (some []) 0 3 none) 1800000).2.2 = none ∧
      ∀ e ∈ (Part000.smartSearchStep ({} : Part000.AppState) 3 false
          (.json true none (some []) 0 3 none) 1800000).2.1,
        e.isHarvestFetch = false) :=
  c2_no_refresh_loop ({ currentPage := 3 } : Part000.AppState)
    ⟨"all", true, 1800000⟩ 7 none ({} : Part000.AppState) 3
    (.json true none (some []) 0 3 none) 1800000 rfl (by decide)

/-- C5: cached-first is a hard ordering contract — whenever a run of
`smartSearch` dispatches the background harvest request, its effect
trace is exactly the loading state, the primary fetch, the render of the
primary results, the filters action and the pagination update, followed
last by the harvest request: the primary fetch completes and its results
are rendered strictly before the harvest request is dispatched. -/
theorem c5_cached_first_ordering (s : Part000.AppState) (page : Nat)
    (rh : Bool) (resp : Part000.PrimaryResponse) (now : Part000.Time)
    (c : String)
    (h : Part000.Effect.fetchHarvestIncremental c ∈
      (Part000.smartSearchStep s page rh resp now).2.1) :
    ∃ p b records live fe pv,
      (Part000.smartSearchStep s page rh resp now).2.1 =
        [.showLoading, .fetchPrimary p b, .renderResultsE records live, fe,
          .updatePaginationE pv, .fetchHarvestIncremental c] := by
  unfold Part000.smartSearchStep Part000.triggerAutoHarvestDispatch at h ⊢
  dsimp only at h ⊢
  by_cases h1 : s.currentCategory = "elis" ∧ s.currentQuery = ""
  · rw [if_pos h1] at h
    simp at h
  · rw [if_neg h1] at h ⊢
    cases resp with
    | netError msg => simp at h
    | json success error results total dpage facets =>
      dsimp only at h ⊢
      by_cases h2 : success = false
      · rw [if_pos h2] at h
        simp at h
      · rw [if_neg h2] at h ⊢
        cases results with
        | none => simp at h
        | some records =>
          dsimp only at h ⊢
          by_cases h3 : rh = true ∧ ¬s.currentCategory = "elis"
          · rw [if_pos h3] at h ⊢
            by_cases h4 : now - s.lastHarvestTime < Part000.HARVEST_INTERVAL
            · rw [if_pos h4] at h
              dsimp only at h
              simp only [List.append_nil, List.mem_cons,
                List.not_mem_nil, or_false] at h
              rcases h with h | h | h | h | h <;>
                (try split at h) <;> simp at h
            · rw [if_neg h4] at h ⊢
              dsimp only at h ⊢
              simp only [List.mem_append, List.mem_cons,
                List.not_mem_nil, or_false] at h
              have hc : c = s.currentCategory := by
                rcases h with (h | h | h | h | h) | h <;>
                  (try split at h) <;> simp at h
                exact h
              subst hc
              exact ⟨_, _, _, _, _, _, rfl⟩
          · rw [if_neg h3] at h
            dsimp only at h
            simp only [List.mem_cons, List.not_mem_nil, or_false] at h
            rcases h with h | h | h | h | h <;>
              (try split at h) <;> simp at h

/-- Witness for C5: a concrete cached-category search whose harvest gate
is open dispatches the harvest request last, after fetch and render. -/
theorem c5_cached_first_ordering_witness :
    ∃ p b records live fe pv,
      (Part000.smartSearchStep ({} : Part000.AppState) 1 true
          (.json true none (some []) 0 1 none) 1800000).2.1 =
        [.showLoading, .fetchPrimary p b, .renderResultsE records live, fe,
          .updatePaginationE pv, .fetchHarvestIncremental "all"] :=
  c5_cached_first_ordering ({} : Part000.AppState) 1 true
    (.json true none (some []) 0 1 none) 1800000 "all" (by decide)

/-- Projection of the rendered card's title. -/
lemma renderRecord_title (r : Part000.SearchRecord) :
    (Part000.renderRecord r).title = Part000.jsOr r.title "Untitled" := rfl

/-- Projection of the rendered card's source. -/
lemma renderRecord_source (r : Part000.SearchRecord) :
    (Part000.renderRecord r).source = Part000.jsOr r.source "Unknown" := rfl

/-- Projection of the rendered card's type. -/
lemma renderRecord_type (r : Part000.SearchRecord) :
    (Part000.renderRecord r).type = Part000.jsOr r.type "Record" := rfl

/-- Projection of the rendered card's year. -/
lemma renderRecord_year (r : Part000.SearchRecord) :
    (Part000.renderRecord r).year = Part000.jsOr r.year "—" := rfl

/-- Projection of the rendered card's identifier. -/
lemma renderRecord_identifier (r : Part000.SearchRecord) :
    (Part000.renderRecord r).identifier = Part000.jsOr r.identifier "—" := rfl

/-- Projection of the rendered card's authors line. -/
lemma renderRecord_authorsLine (r : Part000.SearchRecord) :
    (Part000.renderRecord r).authorsLine =
      (if Part000.authorsText r.authors = "" then none
       else some (Part000.authorsText r.authors)) := rfl

/-- Projection of the rendered card's action. -/
lemma renderRecord_action (r : Part000.SearchRecord) :
    (Part000.renderRecord r).action =
      (if (Part000.jsOr r.url "#") != "" && (Part000.jsOr r.url "#") != "#" &&
          (Part000.strStartsWith (Part000.jsOr r.url "#") "http://" ||
            Part000.strStartsWith (Part000.jsOr r.url "#") "https://") then
        .openUrl (Part000.jsOr r.url "#")
      else .noUrl) := rfl

/-- Projection of the rendered card's description line. -/
lemma renderRecord_descriptionLine (r : Part000.SearchRecord) :
    (Part000.renderRecord r).descriptionLine =
      (if Part000.strTrim (Part000.jsOr r.description "") = "" then none
       else
        some
          (if 300 < (Part000.strTrim (Part000.jsOr r.description "")).length then
            Part000.strTake (Part000.strTrim (Part000.jsOr r.description "")) 300 ++ "…"
          else Part000.strTrim (Part000.jsOr r.description ""))) := rfl

/-- C9: rendering `{title:"", authors:[], url:"ftp://x"}` yields the
placeholder title `"Untitled"`, no authors line, and the disabled
`No URL` action (a url not starting with `http://` or `https://` is
treated as absent); more generally, the renderer defensively defaults
every missing or empty field of any record. -/
theorem c9_defensive_render (r : Part000.SearchRecord) :
    ((Part000.renderRecord
        ⟨some "", .arr [], none, none, none, none, none,
          some "ftp://x"⟩).title = "Untitled" ∧
      (Part000.renderRecord
        ⟨some "", .arr [], none, none, none, none, none,
          some "ftp://x"⟩).authorsLine = none ∧
      (Part000.renderRecord
        ⟨some "", .arr [], none, none, none, none, none,
          some "ftp://x"⟩).action = .noUrl) ∧
    ((r.title = none ∨ r.title = some "") →
      (Part000.renderRecord r).title = "Untitled") ∧
    (Part000.authorsText r.authors = "" →
      (Part000.renderRecord r).authorsLine = none) ∧
    ((r.source = none ∨ r.source = some "") →
      (Part000.renderRecord r).source = "Unknown") ∧
    ((r.type = none ∨ r.type = some "") →
      (Part000.renderRecord r).type = "Record") ∧
    ((r.year = none ∨ r.year = some "") →
      (Part000.renderRecord r).year = "—") ∧
    ((r.identifier = none ∨ r.identifier = some "") →
      (Part000.renderRecord r).identifier = "—") ∧
    ((r.url = none ∨ r.url = some "") →
      (Part000.renderRecord r).action = .noUrl) ∧
    (∀ u, r.url = some u → Part000.strStartsWith u "http://" = false →
      Part000.strStartsWith u "https://" = false →
      (Part000.renderRecord r).action = .noUrl) ∧
    ((r.description = none ∨ r.description = some "") →
      (Part000.renderRecord r).descriptionLine = none) := by
  refine ⟨⟨by decide, by decide, by decide⟩, ?_, ?_, ?_, ?_, ?_, ?_, ?_, ?_, ?_⟩
  · intro h
    rcases h with h | h <;> simp [renderRecord_title, Part000.jsOr, h]
  · intro h
    simp [renderRecord_authorsLine, h]
  · intro h
    rcases h with h | h <;> simp [renderRecord_source, Part000.jsOr, h]
  · intro h
    rcases h with h | h <;> simp [renderRecord_type, Part000.jsOr, h]
  · intro h
    rcases h with h | h <;> simp [renderRecord_year, Part000.jsOr, h]
  · intro h
    rcases h with h | h <;> simp [renderRecord_identifier, Part000.jsOr, h]
  · intro h
    rcases h with h | h <;> simp [renderRecord_action, Part000.jsOr, h]
  · intro u hu h1 h2
    rw [renderRecord_action]
    by_cases h0 : u = ""
    · simp [Part000.jsOr, hu, h0]
    · simp [Part000.jsOr, hu, h0, h1, h2]
  · intro h
    have h0 : Part000.strTrim "" = "" := by decide
    rcases h with h | h <;>
      simp [renderRecord_descriptionLine, Part000.jsOr, h, h0]

/-- C10: for every record, a trimmed description longer than 300
characters is displayed as exactly its first 300 characters followed by
`"…"`; a trimmed description of at most 300 characters is displayed in
full; an empty or missing description produces no description element at
all. -/
theorem c10_description_truncation (r : Part000.SearchRecord) :
    (Part000.strTrim (Part000.jsOr r.description "") = "" →
      (Part000.renderRecord r).descriptionLine = none) ∧
    (Part000.strTrim (Part000.jsOr r.description "") ≠ "" →
      (Part000.strTrim (Part000.jsOr r.description "")).length ≤ 300 →
      (Part000.renderRecord r).descriptionLine =
        some (Part000.strTrim (Part000.jsOr r.description ""))) ∧
    (300 < (Part000.strTrim (Part000.jsOr r.description "")).length →
      (Part000.renderRecord r).descriptionLine =
        some (Part000.strTake (Part000.strTrim (Part000.jsOr r.description "")) 300 ++ "…")) := by
  refine ⟨?_, ?_, ?_⟩
  · intro h
    rw [renderRecord_descriptionLine, if_pos h]
  · intro h1 h2
    rw [renderRecord_descriptionLine, if_neg h1, if_neg (by omega)]
  · intro h3
    have h0 : Part000.strTrim (Part000.jsOr r.description "") ≠ "" := by
      intro h0
      rw [h0] at h3
      simp at h3
    rw [renderRecord_descriptionLine, if_neg h0, if_pos h3]

/-- After a keystroke at time `t` with value `v`, running the rest of an
in-window burst fires nothing until the end, and the final fire uses the
last keystroke. -/
lemma runKeystrokes_after_burst (delay : ScriptJs.Time) :
    ∀ (ks : List (ScriptJs.Time × String)) (t : ScriptJs.Time) (v : String),
      ScriptJs.withinWindow delay ((t, v) :: ks) →
      ScriptJs.runKeystrokes delay ks ⟨v, some (t + delay)⟩ =
        [((ks.getLastD (t, v)).1 + delay, (ks.getLastD (t, v)).2)] := by
  intro ks
  induction ks with
  | nil =>
    intro t v _
    rfl
  | cons hd rest ih =>
    intro t v hw
    obtain ⟨t2, v2⟩ := hd
    obtain ⟨hlt, hw2⟩ := hw
    have hnofire : ¬ t + delay ≤ t2 := not_le.mpr hlt
    show (ScriptJs.flushAt ⟨v, some (t + delay)⟩ t2).1 ++ _ = _
    rw [ScriptJs.flushAt]
    dsimp only
    rw [if_neg hnofire]
    dsimp only [List.nil_append]
    rw [List.getLastD_cons]
    exact ih t2 v2 hw2

/-- C8: for every burst of `N ≥ 1` keystrokes in which each keystroke
falls within the quiescence window of its predecessor, starting with no
timer pending, exactly one search call executes — it fires one `delay`
after the last keystroke and uses the input value of the last keystroke;
every earlier scheduled call is cancelled. -/
theorem c8_debounce_single_call (q0 : String) (t : ScriptJs.Time)
    (v : String) (ks : List (ScriptJs.Time × String))
    (delay : ScriptJs.Time)
    (h : ScriptJs.withinWindow delay ((t, v) :: ks)) :
    ScriptJs.runKeystrokes delay ((t, v) :: ks) ⟨q0, none⟩ =
      [((ks.getLastD (t, v)).1 + delay, (ks.getLastD (t, v)).2)] := by
  show (ScriptJs.flushAt ⟨q0, none⟩ t).1 ++ _ = _
  rw [ScriptJs.flushAt]
  dsimp only [List.nil_append]
  exact runKeystrokes_after_burst delay ks t v h

/-- Witness for C8: three keystrokes at 0, 100 and 400 with delay 450
execute exactly one search, at time 850, with the last value. -/
theorem c8_debounce_single_call_witness :
    ScriptJs.runKeystrokes 450 [(0, "a"), (100, "ab"), (400, "abc")]
        ⟨"", none⟩ = [(850, "abc")] := by
  have h := c8_debounce_single_call "" 0 "a" [(100, "ab"), (400, "abc")] 450
    (by constructor <;> simp [ScriptJs.withinWindow])
  simpa using h
